import Mathlib

/-!
Verification development for the taskstodo task-list synchroniser.

The definitions below are a shallow embedding of src/tasklists.py and
src/calcurse.py.  Python-level effects are made explicit:

* the Google Tasks service is a `Remote` value holding the server-side
  task-list data together with flags saying which calls raise `HttpError`;
* the persisted cache file `tasklists.json` is a `CacheFile` value
  (missing, well-formed JSON, or corrupt bytes);
* an uncaught Python exception is an `Except PyErr` error value;
* a Python task dict `{'title': t}` / `{'title': t, 'note': n}` is a
  `PyTask` with an optional note field (dict equality = structure equality).

The Sync/Diff Engine (`sync_tasks`) is an unfinished stub in the source
(it only reads and prints the local tasks), so the sync algorithm itself is
modelled from the specification text; the model is clearly marked below.
-/

namespace Taskstodo

/-- Uncaught Python exception kinds relevant to the embedded code paths. -/
inductive PyErr
  | indexError
  | typeError
  | jsonDecodeError
deriving DecidableEq, Repr

/-- A task item as returned by the Google Tasks API: `position` is the raw
string value of the response (the code sorts on it before converting it
with `int`), `notes` is the optional notes field read via `.get('notes')`. -/
structure RawTask where
  id : String
  title : String
  updated : String
  notes : Option String
  position : String
deriving DecidableEq, Repr

/-- A task list as returned by `service.tasklists().list`, together with the
task items `service.tasks().list` returns for it. -/
structure RawTasklist where
  id : String
  title : String
  updated : String
  tasks : List RawTask
deriving DecidableEq, Repr

/-- The remote service: its current data plus flags for which calls raise
`HttpError` (network, auth, quota, server error). -/
structure Remote where
  lists : List RawTasklist
  listFails : Bool
  tasksFails : Bool
  mutateFails : Bool
deriving Repr

/-- One task dict of a cache entry, after `create_tasklist_cache` converted
the position to an integer (tasklists.py line 54). -/
structure CacheTask where
  id : String
  title : String
  updated : String
  note : Option String
  position : Nat
deriving DecidableEq, Repr

/-- One task-list dict of the persisted cache file. -/
structure CacheList where
  id : String
  title : String
  updated : String
  tasks : List CacheTask
deriving DecidableEq, Repr

/-- The state of the persisted cache file `tasklists.json`. -/
inductive CacheFile
  | missing
  | wellFormed (tls : List CacheList)
  | corrupt
deriving DecidableEq, Repr

/-- A Python task dict used by the calcurse side: `{'title': t}` when no
note key is present, `{'title': t, 'note': n}` otherwise. -/
structure PyTask where
  title : String
  note : Option String
deriving DecidableEq, Repr

/-- Python `int(s)` on the decimal digit strings the API returns for
`position` (for a non-digit string `int` raises, which no claim here
exercises). -/
def pyInt (s : String) : Nat :=
  s.data.foldl (fun n c => n * 10 + (c.toNat - Char.toNat '0')) 0

/-- The sort `task_items.sort(key=lambda task_items: task_items['position'])`
(tasklists.py lines 47-48 and 183-184): a stable sort keyed on the RAW
position string, compared as Python compares strings (lexicographically by
code point).  Python's `list.sort` and `List.insertionSort` are both stable,
so they agree element by element. -/
def sortTaskItems (items : List RawTask) : List RawTask :=
  List.insertionSort (fun a b => a.position ≤ b.position) items

/-- The cache-task dict built at tasklists.py lines 50-54: keeps id, title,
updated, `note = task.get('notes')`, and `position = int(position)`. -/
def buildCacheTask (t : RawTask) : CacheTask :=
  { id := t.id, title := t.title, updated := t.updated,
    note := t.notes, position := pyInt t.position }

/-- The cache entries `create_tasklist_cache` builds when no remote call
fails: one entry per remote list, with that list's task items sorted by raw
position string and converted by `buildCacheTask`. -/
def buildCache (remote : Remote) : List CacheList :=
  remote.lists.map (fun l =>
    { id := l.id, title := l.title, updated := l.updated,
      tasks := (sortTaskItems l.tasks).map buildCacheTask })

/-- Embeds `create_tasklist_cache` (tasklists.py lines 15-60): on an
`HttpError` from either remote call it prints the error and returns `None`
(here `none`); otherwise it returns the built entries (the same value is
dumped to the cache file). -/
def create_tasklist_cache (remote : Remote) : Option (List CacheList) :=
  if remote.listFails then none
  else if remote.tasksFails then none
  else some (buildCache remote)

/-- Embeds `load_tasklist_cache` (tasklists.py lines 63-77): only
`FileNotFoundError` is caught (returning `None`); a file whose content
`json.load` cannot parse raises `json.JSONDecodeError`, which propagates to
the caller uncaught. -/
def load_tasklist_cache (file : CacheFile) : Except PyErr (Option (List CacheList)) :=
  match file with
  | .missing => .ok none
  | .wellFormed tls => .ok (some tls)
  | .corrupt => .error .jsonDecodeError

/-- The ids of the loaded task lists whose `title` equals the requested
title, in list order (the loop at tasklists.py lines 103-105 and 110-112). -/
def matchingIds (tls : List CacheList) (title : String) : List String :=
  (tls.filter (fun tl => tl.title == title)).map (fun tl => tl.id)

/-- Result of one `get_tasklist_ids` call, instrumented with how many times
`create_tasklist_cache` was invoked: `absentRebuilds` counts the rebuild at
line 100 (cache file missing or holding an empty list), `missRebuilds` the
rebuild at line 109 (title not found in the loaded data). -/
structure ResolveTrace where
  result : Except PyErr (List String)
  absentRebuilds : Nat
  missRebuilds : Nat
deriving Repr

/-- Embeds `get_tasklist_ids` (tasklists.py lines 91-114), instrumented with
rebuild counts.  `load_tasklist_cache` may raise (corrupt cache); `if not
tasklists` is Python truthiness, so both `None` (missing file) and `[]`
trigger the rebuild at line 100; when a rebuild returns `None` (HttpError
path of `create_tasklist_cache`), the subsequent `for tasklist in tasklists`
raises `TypeError`. -/
def get_tasklist_idsT (remote : Remote) (file : CacheFile) (title : String) :
    ResolveTrace :=
  match load_tasklist_cache file with
  | .error e => { result := .error e, absentRebuilds := 0, missRebuilds := 0 }
  | .ok loaded =>
    let truthy : Option (List CacheList) :=
      match loaded with
      | none => none
      | some tls => if tls.isEmpty then none else some tls
    let rebuilt := truthy.isNone
    let tasklists := match truthy with
      | none => create_tasklist_cache remote
      | some tls => some tls
    let aR := if rebuilt then 1 else 0
    match tasklists with
    | none => { result := .error .typeError, absentRebuilds := aR, missRebuilds := 0 }
    | some tls =>
      let tasklist_ids := matchingIds tls title
      if tasklist_ids.isEmpty then
        match create_tasklist_cache remote with
        | none => { result := .error .typeError, absentRebuilds := aR, missRebuilds := 1 }
        | some tls2 =>
          { result := .ok (matchingIds tls2 title), absentRebuilds := aR, missRebuilds := 1 }
      else { result := .ok tasklist_ids, absentRebuilds := aR, missRebuilds := 0 }

/-- The value `get_tasklist_ids` returns to its callers (the uninstrumented
view of `get_tasklist_idsT`). -/
def get_tasklist_ids (remote : Remote) (file : CacheFile) (title : String) :
    Except PyErr (List String) :=
  (get_tasklist_idsT remote file title).result

/-- Embeds `get_duplicates` (tasklists.py lines 80-88): the printed listing
pairs each candidate id with its stable index 0, 1, 2, ... in resolution
order. -/
def get_duplicates (ids : List String) : List (Nat × String) :=
  (List.range ids.length).zip ids

/-- Python list indexing `xs[i]`: a negative index counts from the end; an
index outside the resulting range raises `IndexError`. -/
def pyIndex (xs : List α) (i : Int) : Except PyErr α :=
  let j : Int := if i < 0 then (xs.length : Int) + i else i
  if j < 0 then .error .indexError
  else
    match xs.get? j.toNat with
    | some x => .ok x
    | none => .error .indexError

/-- A remote mutation call issued by an operation (task-list insert, patch
or delete); cache rebuilds and task-list reads are not mutations. -/
inductive Mutation
  | insertList (title : String)
  | patchList (id : String) (newTitle : String)
  | deleteList (id : String)
deriving DecidableEq, Repr

/-- How one run of a title-dependent operation ended, together with every
remote mutation call it issued (issued calls are recorded even if the
server then rejects them). -/
structure OpRun (σ : Type) where
  result : Except PyErr σ
  mutations : List Mutation
deriving Repr

/-- The selector handling shared by `get_tasklist`, `delete_tasklist` and
`update_tasklist` (tasklists.py lines 158-163, 230-235, 260-266): when there
is exactly one candidate or no selector was supplied (`list_num == -1`), the
selector is reset to 0; the chosen candidate is then read with Python list
indexing. -/
def selectId (tasklist_ids : List String) (list_num : Int) : Except PyErr String :=
  let ln : Int := if tasklist_ids.length == 1 || list_num == -1 then 0 else list_num
  pyIndex tasklist_ids ln

/-- Outcome of `delete_tasklist`. -/
inductive DeleteOutcome
  | notFound
  | duplicates (listing : List (Nat × String))
  | httpError
  | deleted (id : String)
deriving DecidableEq, Repr

/-- Embeds `delete_tasklist` (tasklists.py lines 217-244): resolve the
title; empty result prints "Task list does not exist"; more than one id with
no selector (`list_num == -1`) prints the duplicate listing; otherwise, when
there is exactly one id or `list_num == -1`, the selector is reset to 0, the
id is selected with Python indexing (an `IndexError` is uncaught, the only
caught exception is `HttpError` from the delete call) and the delete call is
issued. -/
def delete_tasklist (remote : Remote) (file : CacheFile) (title : String)
    (list_num : Int) : OpRun DeleteOutcome :=
  match get_tasklist_ids remote file title with
  | .error e => { result := .error e, mutations := [] }
  | .ok tasklist_ids =>
    if tasklist_ids.isEmpty then { result := .ok .notFound, mutations := [] }
    else if tasklist_ids.length > 1 && list_num == -1 then
      { result := .ok (.duplicates (get_duplicates tasklist_ids)), mutations := [] }
    else
      match selectId tasklist_ids list_num with
      | .error e => { result := .error e, mutations := [] }
      | .ok theId =>
        if remote.mutateFails then
          { result := .ok .httpError, mutations := [.deleteList theId] }
        else
          { result := .ok (.deleted theId), mutations := [.deleteList theId] }

/-- Outcome of `update_tasklist`. -/
inductive UpdateOutcome
  | notFound
  | duplicates (listing : List (Nat × String))
  | httpError
  | patched (id : String) (newTitle : String)
deriving DecidableEq, Repr

/-- Embeds `update_tasklist` (tasklists.py lines 247-275): same resolution
and selector handling as `delete_tasklist`, issuing a patch call carrying
the new title. -/
def update_tasklist (remote : Remote) (file : CacheFile) (title newTitle : String)
    (list_num : Int) : OpRun UpdateOutcome :=
  match get_tasklist_ids remote file title with
  | .error e => { result := .error e, mutations := [] }
  | .ok tasklist_ids =>
    if tasklist_ids.isEmpty then { result := .ok .notFound, mutations := [] }
    else if tasklist_ids.length > 1 && list_num == -1 then
      { result := .ok (.duplicates (get_duplicates tasklist_ids)), mutations := [] }
    else
      match selectId tasklist_ids list_num with
      | .error e => { result := .error e, mutations := [] }
      | .ok theId =>
        if remote.mutateFails then
          { result := .ok .httpError, mutations := [.patchList theId newTitle] }
        else
          { result := .ok (.patched theId newTitle), mutations := [.patchList theId newTitle] }

/-- Outcome of `get_tasklist`: on success the printed task listing pairs
the display index with the task title, in the printed order. -/
inductive GetOutcome
  | notFound
  | duplicates (listing : List (Nat × String))
  | httpError
  | display (tasks : List (Nat × String))
deriving DecidableEq, Repr

/-- Embeds `get_tasklist` (tasklists.py lines 145-193): same resolution and
selector handling; on success it fetches the tasks of the selected list,
sorts them by raw position string (line 184) and prints them with display
indices 0, 1, 2, ...; it issues no mutation (the final
`create_tasklist_cache` call only reads the remote store and rewrites the
cache file). -/
def get_tasklist (remote : Remote) (file : CacheFile) (title : String)
    (list_num : Int) : OpRun GetOutcome :=
  match get_tasklist_ids remote file title with
  | .error e => { result := .error e, mutations := [] }
  | .ok tasklist_ids =>
    if tasklist_ids.isEmpty then { result := .ok .notFound, mutations := [] }
    else if tasklist_ids.length > 1 && list_num == -1 then
      { result := .ok (.duplicates (get_duplicates tasklist_ids)), mutations := [] }
    else
      match selectId tasklist_ids list_num with
      | .error e => { result := .error e, mutations := [] }
      | .ok theId =>
        if remote.tasksFails then { result := .ok .httpError, mutations := [] }
        else
          let items := match remote.lists.find? (fun l => l.id == theId) with
            | some l => l.tasks
            | none => []
          let sorted := sortTaskItems items
          { result := .ok (.display ((List.range sorted.length).zip (sorted.map (fun t => t.title)))),
            mutations := [] }

/-- The whitespace characters on which Python `str.split()` (no argument)
splits. -/
def pyIsSpace (c : Char) : Bool :=
  c = ' ' || c = '\t' || c = '\n' || c = '\r' || c = '\x0b' || c = '\x0c'

/-- Python `s.split()`: split on runs of whitespace, discarding empty
tokens. -/
def pySplit (s : List Char) : List String :=
  ((List.splitOnP pyIsSpace s).filter (fun t => ¬ t.isEmpty)).map (fun t => String.mk t)

/-- Python `s.rstrip(chr(10))`: remove every trailing newline character. -/
def rstripNewline (s : String) : String :=
  String.mk ((s.data.reverse.dropWhile (fun c => c = '\n')).reverse)

/-- Embeds `get_calcurse_note` (calcurse.py lines 45-53): the body of the
note file named by the hash, with trailing newlines stripped.  The notes
directory is modelled as the function `noteStore` from file name to file
content. -/
def get_calcurse_note (noteStore : String → String) (note_id : String) : String :=
  rstripNewline (noteStore note_id)

/-- The fixed slice `slice(4, -1)` applied at calcurse.py line 23/31/38:
characters from index 4 up to but excluding the final character. -/
def task_slice (l : List Char) : List Char := (l.drop 4).dropLast

/-- Embeds the per-line body of `get_calcurse_tasks` (calcurse.py lines
25-40).  `task_line[3]` raises `IndexError` on a line shorter than 4
characters.  On a note line (`>` at index 3) the note id is the first
whitespace token minus its first 4 characters, and the title is the
sliced line minus its first whitespace token, re-joined with single
spaces; on a plain line the title is the sliced line and no note key is
set. -/
def parse_task_line (noteStore : String → String) (line : String) :
    Except PyErr PyTask :=
  match line.data.get? 3 with
  | none => .error .indexError
  | some c =>
    if c = '>' then
      let note_id := String.mk (((pySplit line.data).headD "").data.drop 4)
      let parts := (pySplit (task_slice line.data)).drop 1
      let title := String.intercalate " " parts
      let note := get_calcurse_note noteStore note_id
      .ok { title := title, note := some note }
    else
      .ok { title := String.mk (task_slice line.data), note := none }

/-- Embeds `get_calcurse_tasks` (calcurse.py lines 12-42): parse each line
of the todo file in order; the first exception aborts the whole read. -/
def get_calcurse_tasks (noteStore : String → String) :
    List String → Except PyErr (List PyTask)
  | [] => .ok []
  | line :: rest =>
    match parse_task_line noteStore line with
    | .error e => .error e
    | .ok t =>
      match get_calcurse_tasks noteStore rest with
      | .error e => .error e
      | .ok ts => .ok (t :: ts)

/-- Embeds the normalisation loop of `get_google_tasks` (calcurse.py lines
63-71): drop id, updated and position; `if not task['note']: task.pop('note')`
removes the note key when its value is `None` or the empty string. -/
def normalize_google_task (t : CacheTask) : PyTask :=
  { title := t.title,
    note := match t.note with
      | none => none
      | some s => if s.isEmpty then none else some s }

/-- Embeds `get_google_tasks` (calcurse.py lines 56-71) applied to the
`tasks` value of the fetched task list. -/
def get_google_tasks (tasks : List CacheTask) : List PyTask :=
  tasks.map normalize_google_task

/-- Result of one run of the Sync/Diff Engine. -/
structure SyncResult where
  missingInLocal : List PyTask
  missingInRemote : List PyTask
  localAfter : List PyTask
  remoteAfter : List PyTask
deriving Repr

/-- Modelled from the spec: the Sync/Diff Engine of section 4.4 is missing
from the source (`sync_tasks` at calcurse.py lines 74-77 is an unfinished
stub that only reads and prints the local tasks).  Per the spec, given the
normalized local multiset `L` and remote multiset `R` (as lists, duplicates
kept), the engine computes `missingInLocal = R − L` and
`missingInRemote = L − R` by duplicate-preserving multiset subtraction
(for each distinct key, `max(0, countOneSide − countOtherSide)` copies),
creates exactly those tasks on the corresponding side, appending in
encounter order, and deletes or mutates nothing.  `List.diff` removes one
occurrence per element, which is exactly truncated multiset subtraction. -/
def sync_tasks_spec (L R : List PyTask) : SyncResult :=
  let missingInLocal := R.diff L
  let missingInRemote := L.diff R
  { missingInLocal := missingInLocal,
    missingInRemote := missingInRemote,
    localAfter := L ++ missingInLocal,
    remoteAfter := R ++ missingInRemote }

/-! ## Concrete fixtures used by witnesses and counterexamples -/

/-- A remote task list with no tasks. -/
def demoRawList (i t : String) : RawTasklist :=
  { id := i, title := t, updated := "2024-01-01T00:00:00Z", tasks := [] }

/-- A healthy remote store holding two lists titled "Work" and one titled
"Home". -/
def demoRemote : Remote :=
  { lists := [demoRawList "a" "Work", demoRawList "b" "Work", demoRawList "c" "Home"],
    listFails := false, tasksFails := false, mutateFails := false }

/-- A cache entry with no tasks. -/
def demoCacheList (i t : String) : CacheList :=
  { id := i, title := t, updated := "2024-01-01T00:00:00Z", tasks := [] }

/-- A cache file consistent with `demoRemote`. -/
def demoCache : CacheFile :=
  .wellFormed [demoCacheList "a" "Work", demoCacheList "b" "Work", demoCacheList "c" "Home"]

/-- A remote store whose task-list enumeration raises `HttpError`. -/
def failRemote : Remote :=
  { lists := [], listFails := true, tasksFails := false, mutateFails := false }

/-! ## Helper lemmas (shared) -/

/-- Counting after `List.diff` is truncated subtraction of counts:
`List.diff` erases one occurrence per element of the subtrahend, which is
exactly duplicate-preserving multiset subtraction. -/
theorem count_diff_eq {α : Type} [DecidableEq α] (a : α) :
    ∀ (l₂ l₁ : List α), (l₁.diff l₂).count a = l₁.count a - l₂.count a := by
  intro l₂
  induction l₂ with
  | nil => intro l₁; simp
  | cons b l₂ ih =>
    intro l₁
    rw [List.diff_cons, ih, List.count_erase, List.count_cons]
    by_cases hb : b = a
    · simp [hb]
      omega
    · have hba : (b == a) = false := by simp [hb]
      have hab : (a == b) = false := by simp [Ne.symm hb]
      simp [hba, hab]

/-- A list whose counts are dominated by another list's counts has empty
`List.diff` against it. -/
theorem diff_eq_nil_of_count_le {α : Type} [DecidableEq α] {l₁ l₂ : List α}
    (h : ∀ a, l₁.count a ≤ l₂.count a) : l₁.diff l₂ = [] := by
  cases hd : l₁.diff l₂ with
  | nil => rfl
  | cons x xs =>
    have hx : (l₁.diff l₂).count x = 0 := by
      rw [count_diff_eq]
      have := h x
      omega
    rw [hd, List.count_cons_self] at hx
    omega

/-! ## C1: sync idempotence (Sync/Diff Engine modelled from the spec) -/

/-- C1: Sync idempotence.  For every local collection `L` and remote
collection `R`, one run of the sync engine produces `localAfter ⊇ L` and
`remoteAfter ⊇ R` (as sublists, so nothing is deleted or reordered), and a
second run on the resulting collections computes an empty `missingInLocal`
and an empty `missingInRemote`, creating nothing on either side. -/
theorem sync_idempotent (L R : List PyTask) :
    List.Sublist L (sync_tasks_spec L R).localAfter ∧
    List.Sublist R (sync_tasks_spec L R).remoteAfter ∧
    (sync_tasks_spec (sync_tasks_spec L R).localAfter
        (sync_tasks_spec L R).remoteAfter).missingInLocal = [] ∧
    (sync_tasks_spec (sync_tasks_spec L R).localAfter
        (sync_tasks_spec L R).remoteAfter).missingInRemote = [] := by
  have hcount : ∀ a : PyTask,
      (L ++ R.diff L).count a = (R ++ L.diff R).count a := by
    intro a
    rw [List.count_append, List.count_append, count_diff_eq, count_diff_eq]
    omega
  refine ⟨List.sublist_append_left L _, List.sublist_append_left R _, ?_, ?_⟩
  · show (((sync_tasks_spec L R).remoteAfter).diff ((sync_tasks_spec L R).localAfter)) = []
    exact diff_eq_nil_of_count_le (fun a => le_of_eq (hcount a).symm)
  · show (((sync_tasks_spec L R).localAfter).diff ((sync_tasks_spec L R).remoteAfter)) = []
    exact diff_eq_nil_of_count_le (fun a => le_of_eq (hcount a))

/-! ## C2: duplicate-preserving multiset diff -/

/-- C2: Duplicate-preserving multiset diff.  For every local `L` and remote
`R` and every task value `a`, the sync engine's `missingInRemote` contains
exactly `countL(a) − countR(a)` copies of `a` (truncated subtraction, i.e.
`max(0, countL − countR)`), the tasks it creates remotely are exactly
`missingInRemote` (appended to `R`), and in particular a local store with
two copies of `{title:"A"}` against an empty remote leads to exactly two
remote creations of that task, not one. -/
theorem sync_multiset_diff :
    (∀ (L R : List PyTask) (a : PyTask),
      ((sync_tasks_spec L R).missingInRemote).count a = L.count a - R.count a) ∧
    (∀ (L R : List PyTask),
      (sync_tasks_spec L R).remoteAfter = R ++ (sync_tasks_spec L R).missingInRemote) ∧
    (sync_tasks_spec [{ title := "A", note := none }, { title := "A", note := none }]
        []).missingInRemote
      = [{ title := "A", note := none }, { title := "A", note := none }] := by
  refine ⟨fun L R a => ?_, fun L R => rfl, rfl⟩
  exact count_diff_eq a R L

/-! ## C6: corrupt cache handling -/

/-- C6 counterexample: a corrupt cache file is not treated as absent: where
an absent file makes `load_tasklist_cache` return `None` (`.ok none`), a
corrupt file raises an uncaught `json.JSONDecodeError` that aborts the
caller. -/
theorem corrupt_cache_counterexample :
    load_tasklist_cache CacheFile.corrupt ≠ Except.ok none := by
  simp [load_tasklist_cache]

/-- C6 amended: `load_tasklist_cache` returns absent only for a missing
file (`FileNotFoundError` is the only exception caught); a parsable file
yields its content, and an unparsable file raises `json.JSONDecodeError`,
which propagates to (and aborts) the caller. -/
theorem load_cache_behavior :
    load_tasklist_cache CacheFile.missing = Except.ok none ∧
    (∀ tls, load_tasklist_cache (CacheFile.wellFormed tls) = Except.ok (some tls)) ∧
    load_tasklist_cache CacheFile.corrupt = Except.error PyErr.jsonDecodeError :=
  ⟨rfl, fun _ => rfl, rfl⟩

/-! ## C7: task ordering -/

/-- A server task item with position string "9". -/
def rawTask9 : RawTask :=
  { id := "t9", title := "nine", updated := "u1", notes := none, position := "9" }

/-- A server task item with position string "10". -/
def rawTask10 : RawTask :=
  { id := "t10", title := "ten", updated := "u2", notes := none, position := "10" }

/-- A remote store with one list whose server-returned task positions are
the strings "9" and "10" (in that order). -/
def posRemote : Remote :=
  { lists := [{ id := "L", title := "Errands", updated := "u",
                tasks := [rawTask9, rawTask10] }],
    listFails := false, tasksFails := false, mutateFails := false }

/-- C7 counterexample: the sort key is the RAW position string, compared
lexicographically, not the integer value.  For server positions "9" and
"10", the rebuilt cache stores the tasks with integer positions `[10, 9]`,
which is not ascending, so the claim that the produced order is by integer
position for every multiset of server position values is false. -/
theorem position_sort_counterexample :
    (create_tasklist_cache posRemote).map
        (fun tls => tls.map (fun tl => tl.tasks.map (fun t => t.position)))
      = some [[10, 9]] ∧
    ¬ List.Sorted (fun a b => a ≤ b) ([10, 9] : List Nat) := by
  have hle : ¬ (rawTask9.position ≤ rawTask10.position) := by
    show ¬ (("9" : String) ≤ "10")
    rw [String.le_iff_toList_le]
    decide
  have hsort : sortTaskItems [rawTask9, rawTask10] = [rawTask10, rawTask9] := by
    simp [sortTaskItems, List.insertionSort, List.orderedInsert, hle]
  constructor
  · simp [create_tasklist_cache, buildCache, posRemote, hsort, buildCacheTask]
    constructor
    · show pyInt rawTask10.position = 10
      decide
    · show pyInt rawTask9.position = 9
      decide
  · intro h
    have := List.rel_of_sorted_cons h 9 (by simp)
    omega

/-- C7 amended: every task sequence the code produces (the rebuilt cache
entries of `create_tasklist_cache` and the display order of `get_tasklist`,
both of which sort with `sortTaskItems`) is sorted in ascending
lexicographic order of the raw position strings — never by update time —
and is a permutation of the fetched tasks.  For the fixed-width zero-padded
position strings the server actually returns, lexicographic order on the
strings coincides with ascending integer order. -/
theorem tasks_sorted_by_position_string (items : List RawTask) :
    List.Sorted (fun a b : RawTask => a.position ≤ b.position) (sortTaskItems items) ∧
    List.Perm (sortTaskItems items) items := by
  haveI h1 : IsTotal RawTask (fun a b => a.position ≤ b.position) :=
    ⟨fun a b => le_total a.position b.position⟩
  haveI h2 : IsTrans RawTask (fun a b => a.position ≤ b.position) :=
    ⟨fun _ _ _ hab hbc => le_trans hab hbc⟩
  exact ⟨List.sorted_insertionSort _ items, List.perm_insertionSort _ items⟩

/-! ## C8: empty-note normalization -/

/-- C8 counterexample: a local task parsed from a note-bearing line whose
note file is empty keeps an explicit empty-string note
(`{'title': ..., 'note': ''}`), while the Google-side normalisation maps an
empty note to a task with no note key at all; the two dicts are not equal,
so empty-note tasks from the two stores do not normalize identically. -/
theorem empty_note_counterexample :
    parse_task_line (fun _ => "") "[0]>abc123 call mom\n"
      = Except.ok { title := "call mom", note := some "" } ∧
    normalize_google_task
        { id := "i", title := "call mom", updated := "u", note := some "", position := 0 }
      = { title := "call mom", note := none } ∧
    ({ title := "call mom", note := some "" } : PyTask)
      ≠ { title := "call mom", note := none } := by
  refine ⟨rfl, rfl, by decide⟩

/-- C8 amended: only the Google side normalizes empty notes: a fetched task
whose note is `None` or the empty string yields a task dict with no note
key; the local parser instead always attaches a note key to a note-bearing
line, holding the note file's content (stripped of trailing newlines) even
when that content is empty, so a local empty-note task and a remote
missing-note task with equal titles do not compare equal. -/
theorem empty_note_normalization :
    (∀ t : CacheTask, t.note = none ∨ t.note = some "" →
      normalize_google_task t = { title := t.title, note := none }) ∧
    (∀ (noteStore : String → String) (line : String),
      line.data.get? 3 = some '>' →
      parse_task_line noteStore line =
        Except.ok { title := String.intercalate " " ((pySplit (task_slice line.data)).drop 1),
                    note := some (get_calcurse_note noteStore
                      (String.mk (((pySplit line.data).headD "").data.drop 4))) }) := by
  constructor
  · intro t ht
    rcases ht with h | h
    · simp [normalize_google_task, h]
    · simp only [normalize_google_task, h]
      rfl
  · intro noteStore line hline
    simp only [List.get?_eq_getElem?] at hline
    simp [parse_task_line, hline]

/-- C8 witness: the amended theorem applied to a concrete Google task with
an empty note and to a concrete local note line. -/
theorem empty_note_normalization_witness :
    normalize_google_task
        { id := "g1", title := "water plants", updated := "u", note := some "", position := 3 }
      = { title := "water plants", note := none } ∧
    parse_task_line (fun _ => "remember the can\n") "[0]>ffff water plants\n"
      = Except.ok { title := "water plants", note := some "remember the can" } := by
  constructor
  · exact empty_note_normalization.1
      { id := "g1", title := "water plants", updated := "u", note := some "", position := 3 }
      (Or.inr rfl)
  · have h := empty_note_normalization.2 (fun _ => "remember the can\n")
      "[0]>ffff water plants\n" (by rfl)
    rw [h]
    rfl

/-! ## C10: fixed-slice parsing of note-less lines -/

/-- On a line whose character at index 3 is not the note marker, the parser
returns a note-less task whose title is the fixed slice `line[4:-1]`. -/
theorem parse_plain_line (noteStore : String → String) (line : String) (c : Char)
    (hc : line.data.get? 3 = some c) (hne : c ≠ '>') :
    parse_task_line noteStore line
      = Except.ok { title := String.mk (task_slice line.data), note := none } := by
  simp only [List.get?_eq_getElem?] at hc
  simp [parse_task_line, hc, hne]

/-- C10: the parser extracts a note-less title as the fixed character slice
from index 4 up to but excluding the last character, unconditionally
dropping the line's final character as an assumed trailing newline: a line
`"[0] " ++ t ++ "\n"` parses to title `t`, but a final line `"[0] " ++ t`
that lacks the trailing newline parses to `t` with its last character
missing. -/
theorem fixed_slice_parsing (noteStore : String → String) :
    (∀ (line : String) (c : Char), line.data.get? 3 = some c → c ≠ '>' →
      parse_task_line noteStore line
        = Except.ok { title := String.mk (task_slice line.data), note := none }) ∧
    (∀ t : String, parse_task_line noteStore ("[0] " ++ t ++ "\n")
        = Except.ok { title := t, note := none }) ∧
    (∀ t : String, parse_task_line noteStore ("[0] " ++ t)
        = Except.ok { title := String.mk t.data.dropLast, note := none }) := by
  refine ⟨parse_plain_line noteStore, ?_, ?_⟩
  · intro t
    have hdata : ("[0] " ++ t ++ "\n").data
        = '[' :: '0' :: ']' :: ' ' :: (t.data ++ ['\n']) := by
      rw [String.data_append, String.data_append]
      rfl
    have h3 : ("[0] " ++ t ++ "\n").data.get? 3 = some ' ' := by
      rw [hdata]
      rfl
    rw [parse_plain_line noteStore _ ' ' h3 (by decide)]
    have hslice : task_slice (("[0] " ++ t ++ "\n").data) = t.data := by
      rw [hdata]
      show (t.data ++ ['\n']).dropLast = t.data
      exact List.dropLast_concat
    rw [hslice]
  · intro t
    have hdata : ("[0] " ++ t).data = '[' :: '0' :: ']' :: ' ' :: t.data := by
      rw [String.data_append]
      rfl
    have h3 : ("[0] " ++ t).data.get? 3 = some ' ' := by
      rw [hdata]
      rfl
    rw [parse_plain_line noteStore _ ' ' h3 (by decide)]
    rw [show task_slice (("[0] " ++ t).data) = t.data.dropLast by rw [hdata]; rfl]

/-- C10 witness: the final line `[0] buy milk` with no trailing newline
parses to the truncated title "buy mil". -/
theorem fixed_slice_parsing_witness :
    parse_task_line (fun _ => "") "[0] buy milk"
      = Except.ok { title := "buy mil", note := none } := by
  have h := (fixed_slice_parsing (fun _ => "")).1 "[0] buy milk" ' ' (by rfl) (by decide)
  rw [h]
  rfl

/-! ## Evaluation lemmas for the resolver (shared) -/

/-- Loaded non-empty cache, title found: no rebuild at all. -/
theorem get_tasklist_idsT_hit (remote : Remote) (tls : List CacheList) (title : String)
    (hne : tls.isEmpty = false) (hm : (matchingIds tls title).isEmpty = false) :
    get_tasklist_idsT remote (CacheFile.wellFormed tls) title =
      { result := .ok (matchingIds tls title), absentRebuilds := 0, missRebuilds := 0 } := by
  simp [get_tasklist_idsT, load_tasklist_cache, hne, hm]

/-- Loaded non-empty cache, title missed, rebuild succeeds: exactly one
miss-triggered rebuild, and the retry runs over the rebuilt entries. -/
theorem get_tasklist_idsT_miss (remote : Remote) (tls tls2 : List CacheList) (title : String)
    (hne : tls.isEmpty = false) (hm : (matchingIds tls title).isEmpty = true)
    (hcr : create_tasklist_cache remote = some tls2) :
    get_tasklist_idsT remote (CacheFile.wellFormed tls) title =
      { result := .ok (matchingIds tls2 title), absentRebuilds := 0, missRebuilds := 1 } := by
  simp [get_tasklist_idsT, load_tasklist_cache, hne, hm, hcr]

/-- Loaded non-empty cache, title missed, rebuild fails: the retry loop
iterates over `None` and raises `TypeError`. -/
theorem get_tasklist_idsT_miss_fail (remote : Remote) (tls : List CacheList) (title : String)
    (hne : tls.isEmpty = false) (hm : (matchingIds tls title).isEmpty = true)
    (hcr : create_tasklist_cache remote = none) :
    get_tasklist_idsT remote (CacheFile.wellFormed tls) title =
      { result := .error .typeError, absentRebuilds := 0, missRebuilds := 1 } := by
  simp [get_tasklist_idsT, load_tasklist_cache, hne, hm, hcr]

/-- No usable cache data (missing file or empty list), rebuild succeeds:
the result comes from the rebuilt entries; the retry on a miss re-reads the
same rebuilt entries, so the result is their matches either way. -/
theorem get_tasklist_idsT_absent (remote : Remote) (file : CacheFile) (title : String)
    (tls2 : List CacheList)
    (hf : file = CacheFile.missing ∨ file = CacheFile.wellFormed [])
    (hcr : create_tasklist_cache remote = some tls2) :
    (get_tasklist_idsT remote file title).result = .ok (matchingIds tls2 title) ∧
    (get_tasklist_idsT remote file title).absentRebuilds = 1 ∧
    (get_tasklist_idsT remote file title).missRebuilds =
      (if (matchingIds tls2 title).isEmpty then 1 else 0) := by
  rcases hf with h | h <;> subst h <;>
    by_cases hm : (matchingIds tls2 title).isEmpty <;>
      simp [get_tasklist_idsT, load_tasklist_cache, hcr, hm]

/-- No usable cache data, rebuild fails: the first iteration over `None`
raises `TypeError` before any match is attempted. -/
theorem get_tasklist_idsT_absent_fail (remote : Remote) (file : CacheFile) (title : String)
    (hf : file = CacheFile.missing ∨ file = CacheFile.wellFormed [])
    (hcr : create_tasklist_cache remote = none) :
    get_tasklist_idsT remote file title =
      { result := .error .typeError, absentRebuilds := 1, missRebuilds := 0 } := by
  rcases hf with h | h <;> subst h <;> simp [get_tasklist_idsT, load_tasklist_cache, hcr]

/-! ## C3: resolveIds with exactly one miss-triggered retry -/

/-- C3: `get_tasklist_ids` loads the cache and rebuilds it when Python sees
no cache data; it collects the ids of all lists matching the title; on a
miss it rebuilds exactly once more and retries; an empty result (the "list
does not exist" report) is returned as the empty id sequence; and no call
ever performs more than one miss-triggered rebuild (nor more than one
absence-triggered rebuild). -/
theorem get_tasklist_ids_one_retry (remote : Remote) (file : CacheFile) (title : String)
    (hl : remote.listFails = false) (ht : remote.tasksFails = false)
    (hc : file ≠ CacheFile.corrupt) :
    (get_tasklist_idsT remote file title).missRebuilds ≤ 1 ∧
    (get_tasklist_idsT remote file title).absentRebuilds ≤ 1 ∧
    (∀ tls, file = CacheFile.wellFormed tls → tls ≠ [] → matchingIds tls title ≠ [] →
      get_tasklist_ids remote file title = Except.ok (matchingIds tls title) ∧
      (get_tasklist_idsT remote file title).missRebuilds = 0) ∧
    (∀ tls, file = CacheFile.wellFormed tls → tls ≠ [] → matchingIds tls title = [] →
      get_tasklist_ids remote file title = Except.ok (matchingIds (buildCache remote) title) ∧
      (get_tasklist_idsT remote file title).missRebuilds = 1) ∧
    ((file = CacheFile.missing ∨ file = CacheFile.wellFormed []) →
      get_tasklist_ids remote file title = Except.ok (matchingIds (buildCache remote) title) ∧
      (get_tasklist_idsT remote file title).absentRebuilds = 1) := by
  have hcr : create_tasklist_cache remote = some (buildCache remote) := by
    simp [create_tasklist_cache, hl, ht]
  cases file with
  | corrupt => exact absurd rfl hc
  | missing =>
    have hev := get_tasklist_idsT_absent remote CacheFile.missing title
      (buildCache remote) (Or.inl rfl) hcr
    refine ⟨?_, ?_, ?_, ?_, ?_⟩
    · rw [hev.2.2]
      split <;> omega
    · rw [hev.2.1]
    · intro tls heq
      cases heq
    · intro tls heq
      cases heq
    · intro _
      exact ⟨hev.1, hev.2.1⟩
  | wellFormed tls =>
    by_cases htl : tls.isEmpty
    · have htl' : tls = [] := by simpa [List.isEmpty_iff] using htl
      subst htl'
      have hev := get_tasklist_idsT_absent remote (CacheFile.wellFormed []) title
        (buildCache remote) (Or.inr rfl) hcr
      refine ⟨?_, ?_, ?_, ?_, ?_⟩
      · rw [hev.2.2]
        split <;> omega
      · rw [hev.2.1]
      · intro tls' heq hne
        cases heq
        exact absurd rfl hne
      · intro tls' heq hne
        cases heq
        exact absurd rfl hne
      · intro _
        exact ⟨hev.1, hev.2.1⟩
    · have htl' : tls.isEmpty = false := by simpa using htl
      by_cases hm : (matchingIds tls title).isEmpty
      · have hev := get_tasklist_idsT_miss remote tls (buildCache remote) title htl'
          (by simpa using hm) hcr
        have hm' : matchingIds tls title = [] := by simpa [List.isEmpty_iff] using hm
        refine ⟨?_, ?_, ?_, ?_, ?_⟩
        · rw [hev]
        · rw [hev]
          exact Nat.zero_le 1
        · intro tls' heq hne hmm
          cases heq
          exact absurd hm' hmm
        · intro tls' heq hne hmm
          cases heq
          exact ⟨by rw [get_tasklist_ids, hev], by rw [hev]⟩
        · intro hf
          rcases hf with h | h
          · cases h
          · cases h
            simp at htl'
      · have hmf : (matchingIds tls title).isEmpty = false := by simpa using hm
        have hev := get_tasklist_idsT_hit remote tls title htl' hmf
        have hm' : matchingIds tls title ≠ [] := by
          intro hx
          rw [hx] at hmf
          simp at hmf
        refine ⟨?_, ?_, ?_, ?_, ?_⟩
        · simp [hev]
        · simp [hev]
        · intro tls' heq hne hmm
          cases heq
          exact ⟨by rw [get_tasklist_ids, hev], by rw [hev]⟩
        · intro tls' heq hne hmm
          cases heq
          exact absurd hmm hm'
        · intro hf
          rcases hf with h | h
          · cases h
          · cases h
            simp at htl'

/-- C3 witness: resolving "Work" against the healthy demo store and its
cache stays within one miss-triggered rebuild and returns both matching
ids. -/
theorem get_tasklist_ids_one_retry_witness :
    (get_tasklist_idsT demoRemote demoCache "Work").missRebuilds ≤ 1 ∧
    get_tasklist_ids demoRemote demoCache "Work" = Except.ok ["a", "b"] := by
  have h := get_tasklist_ids_one_retry demoRemote demoCache "Work" rfl rfl
    (by intro hx; cases hx)
  refine ⟨h.1, ?_⟩
  have h2 := h.2.2.1
    [demoCacheList "a" "Work", demoCacheList "b" "Work", demoCacheList "c" "Home"]
    rfl (by decide) (by decide)
  rw [h2.1]
  rfl

/-! ## C9: remote failures are not surfaced as structured outcomes -/

/-- C9 counterexample: when the remote enumeration fails,
`create_tasklist_cache` prints the error and returns `None` — not a
structured failure outcome — and `get_tasklist_ids` (with no usable cache)
then crashes with an uncaught `TypeError` when it iterates over that
`None`, instead of handing its caller an outcome distinguishable from
NotFound. -/
theorem remote_failure_counterexample :
    create_tasklist_cache failRemote = none ∧
    get_tasklist_ids failRemote CacheFile.missing "Work" = Except.error PyErr.typeError :=
  ⟨rfl, rfl⟩

/-- C9 amended: on a remote failure during rebuild the cache functions do
not return a structured failure outcome: `create_tasklist_cache` returns
`None` after printing, and every `get_tasklist_ids` call that needs a
rebuild (missing or empty cache file, or a title miss on the loaded data)
ends in an uncaught `TypeError`. -/
theorem remote_failure_crash (remote : Remote) (file : CacheFile) (title : String)
    (hl : remote.listFails = true) :
    create_tasklist_cache remote = none ∧
    ((file = CacheFile.missing ∨ file = CacheFile.wellFormed []) →
      get_tasklist_ids remote file title = Except.error PyErr.typeError) ∧
    (∀ tls, file = CacheFile.wellFormed tls → matchingIds tls title = [] →
      get_tasklist_ids remote file title = Except.error PyErr.typeError) := by
  have hcr : create_tasklist_cache remote = none := by
    simp [create_tasklist_cache, hl]
  refine ⟨hcr, ?_, ?_⟩
  · intro hf
    rw [get_tasklist_ids, get_tasklist_idsT_absent_fail remote file title hf hcr]
  · intro tls hf hm
    subst hf
    by_cases htl : tls.isEmpty
    · have htl' : tls = [] := by simpa [List.isEmpty_iff] using htl
      subst htl'
      rw [get_tasklist_ids, get_tasklist_idsT_absent_fail remote
        (CacheFile.wellFormed []) title (Or.inr rfl) hcr]
    · rw [get_tasklist_ids, get_tasklist_idsT_miss_fail remote tls title
        (by simpa using htl) (by simp [hm]) hcr]

/-- C9 witness: the amended theorem applied to the failing remote store and
a missing cache file. -/
theorem remote_failure_crash_witness :
    create_tasklist_cache failRemote = none ∧
    get_tasklist_ids failRemote CacheFile.missing "Home" = Except.error PyErr.typeError := by
  have h := remote_failure_crash failRemote CacheFile.missing "Home" rfl
  exact ⟨h.1, h.2.1 (Or.inl rfl)⟩

/-! ## Selector lemmas (shared) -/

/-- With more than one candidate and a selector at or beyond the candidate
count, Python indexing raises `IndexError`. -/
theorem selectId_oob (ids : List String) (s : Int) (h1 : 1 < ids.length)
    (h2 : (ids.length : Int) ≤ s) :
    selectId ids s = .error .indexError := by
  have hc : ((ids.length == 1) || (s == -1)) = false := by
    simp only [Bool.or_eq_false_iff, beq_eq_false_iff_ne]
    constructor <;> (intro hx; omega)
  have hnneg : ¬ (s < 0) := by omega
  have hnone : ids[s.toNat]? = none := List.getElem?_eq_none (by omega)
  simp [selectId, pyIndex, hc, hnneg, hnone]

/-- With a single candidate, any selector whatsoever is replaced by index 0
and the unique candidate is chosen. -/
theorem selectId_single (a : String) (s : Int) : selectId [a] s = .ok a := rfl

/-- With more than one candidate, a negative selector other than the -1
sentinel is wrapped Python-style, picking from the end of the candidate
list. -/
theorem selectId_wrap (ids : List String) (s : Int) (x : String) (h1 : 1 < ids.length)
    (h2 : -(ids.length : Int) ≤ s) (h3 : s ≤ -2)
    (hx : ids.get? ((ids.length : Int) + s).toNat = some x) :
    selectId ids s = .ok x := by
  have hc : ((ids.length == 1) || (s == -1)) = false := by
    simp only [Bool.or_eq_false_iff, beq_eq_false_iff_ne]
    constructor <;> (intro hy; omega)
  have hneg : s < 0 := by omega
  have hnn : ¬ ((ids.length : Int) + s < 0) := by omega
  have hx2 : ids[((ids.length : Int) + s).toNat]? = some x := by
    rw [← List.get?_eq_getElem?]
    exact hx
  simp [selectId, pyIndex, hc, hneg, hnn, hx2]

/-! ## C4: ambiguity short-circuit -/

/-- C4: whenever title resolution yields more than one identifier and the
caller supplies no selector (`list_num == -1`), each title-dependent
operation (get, delete, rename) reports the duplicate listing — the full
candidate set paired with stable indices 0, 1, 2, ... — and issues zero
remote mutation calls. -/
theorem ambiguity_short_circuit (remote : Remote) (file : CacheFile)
    (title newTitle : String) (ids : List String)
    (hids : get_tasklist_ids remote file title = Except.ok ids)
    (hlen : 1 < ids.length) :
    delete_tasklist remote file title (-1)
      = { result := .ok (.duplicates (get_duplicates ids)), mutations := [] } ∧
    update_tasklist remote file title newTitle (-1)
      = { result := .ok (.duplicates (get_duplicates ids)), mutations := [] } ∧
    get_tasklist remote file title (-1)
      = { result := .ok (.duplicates (get_duplicates ids)), mutations := [] } ∧
    get_duplicates ids = (List.range ids.length).zip ids := by
  have hne : ids.isEmpty = false := by
    cases ids with
    | nil => simp at hlen
    | cons a l => rfl
  refine ⟨?_, ?_, ?_, rfl⟩ <;>
    simp [delete_tasklist, update_tasklist, get_tasklist, hids, hne, hlen]

/-- C4 witness: two remote lists titled "Work" and no selector make delete
report the indexed duplicate listing and mutate nothing. -/
theorem ambiguity_short_circuit_witness :
    delete_tasklist demoRemote demoCache "Work" (-1)
      = { result := .ok (.duplicates [(0, "a"), (1, "b")]), mutations := [] } := by
  have h := ambiguity_short_circuit demoRemote demoCache "Work" "New" ["a", "b"]
    (by rfl) (by decide)
  rw [h.1]
  rfl

/-! ## C5: out-of-range selectors -/

/-- C5 counterexample: the claim says every invalid selector is an error
with no mutation, never wrapped or replaced by a default.  But with the two
"Work" lists of the demo store, selector -2 wraps Python-style to index 0
and the delete call is issued against id "a"; and with the single "Home"
list, selector 7 is silently replaced by index 0 and the delete call is
issued against id "c". -/
theorem selector_out_of_range_counterexample :
    delete_tasklist demoRemote demoCache "Work" (-2)
      = { result := .ok (.deleted "a"), mutations := [.deleteList "a"] } ∧
    delete_tasklist demoRemote demoCache "Home" 7
      = { result := .ok (.deleted "c"), mutations := [.deleteList "c"] } :=
  ⟨rfl, rfl⟩

/-- C5 amended: with more than one candidate, a selector at or beyond the
candidate count raises an uncaught `IndexError` before any mutation call is
issued (never clamped); but a negative selector other than -1 is wrapped
Python-style, picking from the end of the candidate list and mutating, and
with exactly one candidate every selector is silently replaced by index 0
and the mutation proceeds on the unique identifier. -/
theorem selector_out_of_range (remote : Remote) (file : CacheFile)
    (title newTitle : String) (ids : List String) (s : Int)
    (hids : get_tasklist_ids remote file title = Except.ok ids)
    (hmut : remote.mutateFails = false) :
    (1 < ids.length → (ids.length : Int) ≤ s →
      delete_tasklist remote file title s
        = { result := .error .indexError, mutations := [] } ∧
      update_tasklist remote file title newTitle s
        = { result := .error .indexError, mutations := [] }) ∧
    (∀ a, ids = [a] →
      delete_tasklist remote file title s
        = { result := .ok (.deleted a), mutations := [.deleteList a] }) ∧
    (∀ x, 1 < ids.length → -(ids.length : Int) ≤ s → s ≤ -2 →
      ids.get? ((ids.length : Int) + s).toNat = some x →
      delete_tasklist remote file title s
        = { result := .ok (.deleted x), mutations := [.deleteList x] }) := by
  refine ⟨?_, ?_, ?_⟩
  · intro h1 h2
    have hne : ids.isEmpty = false := by
      cases ids with
      | nil => simp at h1
      | cons a l => rfl
    have hsel := selectId_oob ids s h1 h2
    have hs1 : (s == -1) = false := by
      simp only [beq_eq_false_iff_ne]
      omega
    constructor <;>
      simp [delete_tasklist, update_tasklist, hids, hne, h1, hs1, hsel]
  · intro a ha
    subst ha
    simp [delete_tasklist, hids, selectId_single, hmut]
  · intro x h1 h2 h3 hx
    have hne : ids.isEmpty = false := by
      cases ids with
      | nil => simp at h1
      | cons a l => rfl
    have hsel := selectId_wrap ids s x h1 h2 h3 hx
    have hs1 : (s == -1) = false := by
      simp only [beq_eq_false_iff_ne]
      omega
    simp [delete_tasklist, hids, hne, h1, hs1, hsel, hmut]

/-- C5 witness: the amended theorem at the demo store: selector 5 against
the two "Work" lists crashes with `IndexError` and mutates nothing, while
selector -2 wraps to the first "Work" list and deletes it. -/
theorem selector_out_of_range_witness :
    delete_tasklist demoRemote demoCache "Work" 5
      = { result := .error .indexError, mutations := [] } ∧
    delete_tasklist demoRemote demoCache "Work" (-2)
      = { result := .ok (.deleted "a"), mutations := [.deleteList "a"] } := by
  have h := selector_out_of_range demoRemote demoCache "Work" "New" ["a", "b"] 5
    (by rfl) rfl
  have h2 := selector_out_of_range demoRemote demoCache "Work" "New" ["a", "b"] (-2)
    (by rfl) rfl
  exact ⟨(h.1 (by decide) (by decide)).1,
         h2.2.2 "a" (by decide) (by decide) (by decide) (by decide)⟩

end Taskstodo
